import Mathlib

/-!
Shallow embedding of the HTML-Gunship game core, translated from the
repository sources: the sprite and animation model (src/scripts/Sprite.js,
src/scripts/AutoSprite.js), the fixed-step game clock (src/scripts/GameClock.js)
and the per-tick engine orchestration (src/scripts/GameEngine.js).  The
repository README (src/README.md) documents one later revision of Sprite.js:
the addition of the setDone method; that method is embedded here from the
README listing because the engine code calls it.

Positions, sizes and canvas coordinates are rationals (the engine moves
enemies by 1.66 pixels per frame and centres bullets with halved sizes, so
integer positions would not be faithful); all the numeric literals of the
source are exactly representable as rationals.  Wall-clock times are
integers (milliseconds) where the source subtracts Date.now values, and
rationals in the clock where the source divides by the fractional
milliseconds-per-frame constant.  Event emission is modelled by returning
the list of emitted events from the per-tick functions.
-/

namespace Gunship

/-- Screen position of a sprite as stored in curSpritePos: a top and a left
coordinate, in pixels. -/
structure Pos where
  top : ℚ
  left : ℚ
deriving DecidableEq, Repr

/-- Size record as returned by getSize: width w and height h in pixels. -/
structure Size where
  w : ℚ
  h : ℚ
deriving DecidableEq, Repr

/-- Layout or motion axis; the strings horizontal and vertical in the
JavaScript source. -/
inductive Axis where
  | horizontal
  | vertical
deriving DecidableEq, Repr

/-- Motion state added by AutoSprite.js: signed pixels moved per frame and
the axis of motion (the sign encodes the direction). -/
structure AutoMove where
  pxPerFrame : ℚ
  moveDirection : Axis
deriving DecidableEq, Repr

/-- State of one sprite object from Sprite.js: the construction-time
definition (atlas source position, frame size, frame rate, frame order,
layout direction, play-once flag) and the mutable state (current frame
index, screen position, accumulated clock frames, done flag).  The auto
field is none for a plain Sprite and carries the AutoSprite motion data for
sprites built through AutoSprite.js. -/
structure SpriteState where
  srcPos : Pos
  size : Size
  frameRate : ℕ
  frameSet : List ℕ
  frameDir : Axis
  once : Bool
  frameIdx : ℕ
  curSpritePos : Pos
  clockFrame : ℕ
  done : Bool
  auto : Option AutoMove
deriving DecidableEq, Repr

/-- frameDivisor as computed in the Sprite constructor:
60/frameRate when the frame rate is positive, otherwise 0. -/
def frameDivisor (s : SpriteState) : ℚ :=
  if 0 < s.frameRate then 60 / (s.frameRate : ℚ) else 0

/-- Sprite.update from src/scripts/Sprite.js lines 86-104.  When the frame
divisor is positive: accumulate the elapsed frames into clockFrame, let
moveFrames be the floor of clockFrame divided by the frame divisor, set
frameIdx to moveFrames modulo the frame-set length, and reassign done to
(once AND moveFrames > frameSet.length).  The reassignment of done is
exactly the source's: it does not OR with the previous value. -/
def spriteUpdate (s : SpriteState) (framesElapsed : ℕ) : SpriteState :=
  if 0 < frameDivisor s then
    let clockFrame := s.clockFrame + framesElapsed
    let moveFrames : ℤ := ⌊(clockFrame : ℚ) / frameDivisor s⌋
    { s with
      clockFrame := clockFrame
      frameIdx := (moveFrames % (s.frameSet.length : ℤ)).toNat
      done := s.once && decide ((s.frameSet.length : ℤ) < moveFrames) }
  else s

/-- Visibility part of Sprite.render from src/scripts/Sprite.js lines
106-135: done is OR-combined with the offscreen test on the current
position against the canvas bounds.  The drawImage call itself is pure
output and has no effect on the sprite state, so it is not modelled. -/
def spriteRender (s : SpriteState) (canvasWidth canvasHeight : ℚ) : SpriteState :=
  { s with
    done := s.done ||
      (decide (s.curSpritePos.left < -s.size.w) ||
       decide (canvasWidth < s.curSpritePos.left) ||
       decide (s.curSpritePos.top < -s.size.h) ||
       decide (canvasHeight < s.curSpritePos.top)) }

/-- Sprite.setPosition: store the given top and left as the current
position. -/
def setPosition (s : SpriteState) (top left : ℚ) : SpriteState :=
  { s with curSpritePos := { top := top, left := left } }

/-- Sprite.setDone as added to Sprite.js by the repository documentation
(src/README.md line 1609): assign the argument to the done flag. -/
def setDone (s : SpriteState) (status : Bool) : SpriteState :=
  { s with done := status }

/-- AutoSprite.update from src/scripts/AutoSprite.js: translate the current
position by pxPerFrame times the elapsed frames along the configured axis,
store it, then delegate to Sprite.update. -/
def autoSpriteUpdate (s : SpriteState) (m : AutoMove) (framesElapsed : ℕ) : SpriteState :=
  let curPos := s.curSpritePos
  let newPos : Pos :=
    match m.moveDirection with
    | .horizontal => { curPos with left := curPos.left + m.pxPerFrame * (framesElapsed : ℚ) }
    | .vertical => { curPos with top := curPos.top + m.pxPerFrame * (framesElapsed : ℚ) }
  spriteUpdate (setPosition s newPos.top newPos.left) framesElapsed

/-- The update method actually invoked on a sprite object: the AutoSprite
override when the sprite was built by AutoSprite.js, the plain Sprite
update otherwise. -/
def updateSprite (s : SpriteState) (framesElapsed : ℕ) : SpriteState :=
  match s.auto with
  | none => spriteUpdate s framesElapsed
  | some m => autoSpriteUpdate s m framesElapsed

/-- overlap from src/scripts/GameEngine.js lines 177-193: compute the four
bounding lines of each sprite and test the top edge, then the bottom edge,
of s1 for containment in the vertical span of s2, combined with the left or
right edge of s1 contained in the horizontal span of s2. -/
def overlap (s1 s2 : SpriteState) : Bool :=
  let s1top := s1.curSpritePos.top
  let s1bottom := s1.curSpritePos.top + s1.size.h
  let s1left := s1.curSpritePos.left
  let s1right := s1.curSpritePos.left + s1.size.w
  let s2top := s2.curSpritePos.top
  let s2bottom := s2.curSpritePos.top + s2.size.h
  let s2left := s2.curSpritePos.left
  let s2right := s2.curSpritePos.left + s2.size.w
  (decide (s2top ≤ s1top) && decide (s1top ≤ s2bottom) &&
    (decide (s2left ≤ s1left) && decide (s1left ≤ s2right) ||
     decide (s2left ≤ s1right) && decide (s1right ≤ s2right))) ||
  (decide (s2top ≤ s1bottom) && decide (s1bottom ≤ s2bottom) &&
    (decide (s2left ≤ s1left) && decide (s1left ≤ s2right) ||
     decide (s2left ≤ s1right) && decide (s1right ≤ s2right)))

/-- One iteration body of the renderSprites loop: the sprite's update
method followed by its render method. -/
def spriteStep (framesElapsed : ℕ) (canvasWidth canvasHeight : ℚ)
    (s : SpriteState) : SpriteState :=
  spriteRender (updateSprite s framesElapsed) canvasWidth canvasHeight

/-- renderSprites from src/scripts/GameEngine.js lines 196-211, as the
index-driven loop of the source: at index ix, update and render the sprite
stored there; if it is then done, splice it out and re-examine the same
index (the post-decrement of ix in the source), otherwise advance to the
next index. -/
def renderSpritesLoop (framesElapsed : ℕ) (canvasWidth canvasHeight : ℚ)
    (spriteArray : List SpriteState) (ix : ℕ) : List SpriteState :=
  if h : ix < spriteArray.length then
    let s := spriteArray.get ⟨ix, h⟩
    let s1 := spriteStep framesElapsed canvasWidth canvasHeight s
    let arr1 := spriteArray.set ix s1
    if s1.done then
      renderSpritesLoop framesElapsed canvasWidth canvasHeight (arr1.eraseIdx ix) ix
    else
      renderSpritesLoop framesElapsed canvasWidth canvasHeight arr1 (ix + 1)
  else
    spriteArray
termination_by spriteArray.length - ix
decreasing_by
  · simp only [List.length_eraseIdx, List.length_set]
    split
    · omega
    · omega
  · simp only [List.length_set]
    omega

/-- renderSprites entry point: the loop started at index 0. -/
def renderSprites (spriteArray : List SpriteState) (framesElapsed : ℕ)
    (canvasWidth canvasHeight : ℚ) : List SpriteState :=
  renderSpritesLoop framesElapsed canvasWidth canvasHeight spriteArray 0

/-- Engine constant MOVE_PIXELS: pixels the player moves per frame. -/
def MOVE_PIXELS : ℚ := 3

/-- Engine constant BULLET_SPEED: pixels a bullet moves per frame. -/
def BULLET_SPEED : ℚ := 5

/-- Engine constant KEY_REPEAT_DELAY: milliseconds between registered
keypresses. -/
def KEY_REPEAT_DELAY : ℤ := 250

/-- Engine constant ENEMY_ADDITION_INCREMENT (0.05): how much the level is
incremented each ratchet step. -/
def ENEMY_ADDITION_INCREMENT : ℚ := 5 / 100

/-- Engine variable initialAdditionRate (0.05): the initial rate for adding
enemies. -/
def initialAdditionRate : ℚ := 5 / 100

/-- Engine constant MS_PER_INCREMENT: the level ratchets up every 15000
milliseconds. -/
def MS_PER_INCREMENT : ℕ := 15000

/-- Engine constant MAX_ENEMIES. -/
def MAX_ENEMIES : ℕ := 100

/-- Logical action names used as keys of the keyStatusMap and keyHitTime
maps of the engine (the source uses the strings SPACE, LEFT, UP, RIGHT and
DOWN). -/
inductive ActionKey where
  | SPACE
  | LEFT
  | UP
  | RIGHT
  | DOWN
deriving DecidableEq, Repr

/-- Pressed state of the five recognised keys, the keyStatusMap of the
engine.  Unlisted key codes never enter the map, which this fixed record
reflects. -/
structure KeyStatus where
  space : Bool := false
  left : Bool := false
  up : Bool := false
  right : Bool := false
  down : Bool := false
deriving DecidableEq, Repr

/-- checkKeyHitDelay from src/scripts/GameEngine.js lines 246-260.  The
keyHitTime map is modelled as a total function with default 0: the source
reads a missing entry as 0 through its falsy test, and a stored 0 reads the
same way.  Returns the boolean result together with the keyHitTime map
after the call. -/
def checkKeyHitDelay (keyHitTime : ActionKey → ℤ) (keyName : ActionKey)
    (delay : ℤ) (curTime : ℤ) : Bool × (ActionKey → ℤ) :=
  let lastHit := keyHitTime keyName
  if delay ≤ curTime - lastHit then
    (true, fun k => if k = keyName then curTime else keyHitTime k)
  else
    (false, keyHitTime)

/-- createEnemySprite from src/scripts/GameEngine.js lines 262-270.  The
value randTop stands for the Math.random()*canvasHeight sample of the
source; the atlas source rectangle follows the AutoSprite argument order
(the constructor passes its left argument into the Sprite top parameter and
conversely, so the enemy atlas position is recorded exactly as the nested
calls produce it). -/
def createEnemySprite (canvasWidth canvasHeight : ℚ) (randTop : ℚ) : SpriteState :=
  let s : SpriteState :=
    { srcPos := { top := 0, left := 78 }
      size := { w := 80, h := 39 }
      frameRate := 10
      frameSet := [0, 1, 2, 3, 2, 1]
      frameDir := .horizontal
      once := false
      frameIdx := 0
      curSpritePos := { top := 0, left := 0 }
      clockFrame := 0
      done := false
      auto := some { pxPerFrame := -166 / 100, moveDirection := .horizontal } }
  let left := canvasWidth - 5
  let top := min randTop (canvasHeight - s.size.h)
  setPosition s top left

/-- createPlayerSprite from src/scripts/GameEngine.js lines 272-278. -/
def createPlayerSprite (canvasHeight : ℚ) : SpriteState :=
  let s : SpriteState :=
    { srcPos := { top := 5, left := 0 }
      size := { w := 39, h := 25 }
      frameRate := 10
      frameSet := [0, 1]
      frameDir := .horizontal
      once := false
      frameIdx := 0
      curSpritePos := { top := 0, left := 0 }
      clockFrame := 0
      done := false
      auto := none }
  let top : ℚ := (⌊(canvasHeight - 39) / 2⌋ : ℤ)
  setPosition s top 0

/-- createBulletSprites from src/scripts/GameEngine.js lines 280-296: three
AutoSprite bullets (forward, up, down) positioned relative to the player's
current bounding box; the returned list order is forward, up, down as in
the source. -/
def createBulletSprites (playerSprite : SpriteState) : List SpriteState :=
  let spos := playerSprite.curSpritePos
  let ssize := playerSprite.size
  let forward : SpriteState :=
    { srcPos := { top := 0, left := 39 }
      size := { w := 17, h := 7 }
      frameRate := 0
      frameSet := [0]
      frameDir := .horizontal
      once := false
      frameIdx := 0
      curSpritePos := { top := spos.top + ssize.h / 2 - 7 / 2, left := spos.left + ssize.w }
      clockFrame := 0
      done := false
      auto := some { pxPerFrame := BULLET_SPEED, moveDirection := .horizontal } }
  let down : SpriteState :=
    { srcPos := { top := 0, left := 60 }
      size := { w := 9, h := 5 }
      frameRate := 0
      frameSet := [0]
      frameDir := .horizontal
      once := false
      frameIdx := 0
      curSpritePos := { top := spos.top + ssize.h, left := spos.left + ssize.w / 2 - 9 / 2 }
      clockFrame := 0
      done := false
      auto := some { pxPerFrame := BULLET_SPEED, moveDirection := .vertical } }
  let up : SpriteState :=
    { srcPos := { top := 0, left := 50 }
      size := { w := 9, h := 5 }
      frameRate := 0
      frameSet := [0]
      frameDir := .horizontal
      once := false
      frameIdx := 0
      curSpritePos := { top := spos.top, left := spos.left + ssize.w / 2 - 9 / 2 }
      clockFrame := 0
      done := false
      auto := some { pxPerFrame := -BULLET_SPEED, moveDirection := .vertical } }
  [forward, up, down]

/-- createExplosionAt from src/scripts/GameEngine.js lines 298-302: a
play-once Sprite with twelve frames at rate 4, positioned at the given
point. -/
def createExplosionAt (top left : ℚ) : SpriteState :=
  { srcPos := { top := 116, left := 0 }
    size := { w := 39, h := 39 }
    frameRate := 4
    frameSet := [0, 1, 2, 3, 4, 5, 6, 7, 8, 9, 10, 11]
    frameDir := .horizontal
    once := true
    frameIdx := 0
    curSpritePos := { top := top, left := left }
    clockFrame := 0
    done := false
    auto := none }

/-- Result of one checkPlayerActions call: the player sprite (with its
possibly changed position), the bullets array and the keyHitTime map after
the call. -/
structure PlayerActionsResult where
  playerSprite : SpriteState
  bullets : List SpriteState
  keyHitTime : ActionKey → ℤ

/-- checkPlayerActions from src/scripts/GameEngine.js lines 213-242.  Each
of the four direction branches calls setPosition with coordinates computed
from currentPlayerPos, the position snapshot taken once at entry, exactly
as the source does; a later branch therefore overwrites the coordinates set
by an earlier one.  The SPACE branch calls the key-repeat gate only when
the key is down (the source's short-circuit) and concatenates the three new
bullets when the gate opens. -/
def checkPlayerActions (keyStatusMap : KeyStatus) (framesElapsed : ℕ)
    (canvasWidth canvasHeight playerWidth playerHeight : ℚ) (curTime : ℤ)
    (playerSprite : SpriteState) (bullets : List SpriteState)
    (keyHitTime : ActionKey → ℤ) : PlayerActionsResult :=
  let currentPlayerPos := playerSprite.curSpritePos
  let p1 := if keyStatusMap.left then
      setPosition playerSprite currentPlayerPos.top
        (max 0 (currentPlayerPos.left - MOVE_PIXELS * (framesElapsed : ℚ)))
    else playerSprite
  let p2 := if keyStatusMap.right then
      setPosition p1 currentPlayerPos.top
        (min (canvasWidth - playerWidth)
          (currentPlayerPos.left + MOVE_PIXELS * (framesElapsed : ℚ)))
    else p1
  let p3 := if keyStatusMap.up then
      setPosition p2
        (max 0 (currentPlayerPos.top - MOVE_PIXELS * (framesElapsed : ℚ)))
        currentPlayerPos.left
    else p2
  let p4 := if keyStatusMap.down then
      setPosition p3
        (min (canvasHeight - playerHeight)
          (currentPlayerPos.top + MOVE_PIXELS * (framesElapsed : ℚ)))
        currentPlayerPos.left
    else p3
  if keyStatusMap.space then
    let gate := checkKeyHitDelay keyHitTime ActionKey.SPACE KEY_REPEAT_DELAY curTime
    if gate.fst then
      { playerSprite := p4, bullets := bullets ++ createBulletSprites p4,
        keyHitTime := gate.snd }
    else
      { playerSprite := p4, bullets := bullets, keyHitTime := gate.snd }
  else
    { playerSprite := p4, bullets := bullets, keyHitTime := keyHitTime }

/-- currentLevel from addEnemies (src/scripts/GameEngine.js line 163): the
difficulty level from the elapsed wall time in milliseconds; the floor of
the division is natural-number division. -/
def currentLevel (elapsedTimeMillis : ℕ) : ℚ :=
  min (initialAdditionRate +
    ENEMY_ADDITION_INCREMENT * ((elapsedTimeMillis / MS_PER_INCREMENT : ℕ) : ℚ)) 1

/-- currentMaxEnemies from addEnemies (line 164): the floor of MAX_ENEMIES
times the current level, the target enemy count for this tick. -/
def currentMaxEnemies (elapsedTimeMillis : ℕ) : ℤ :=
  ⌊(MAX_ENEMIES : ℚ) * currentLevel elapsedTimeMillis⌋

/-- numToCreate from addEnemies (lines 165-166): the target count minus the
current length of the enemies array, clamped below at 0. -/
def numToCreate (elapsedTimeMillis : ℕ) (enemiesLength : ℕ) : ℤ :=
  let n := currentMaxEnemies elapsedTimeMillis - (enemiesLength : ℤ)
  if n < 0 then 0 else n

/-- addEnemies from src/scripts/GameEngine.js lines 154-173: create
numToCreate new enemies; the function randTop supplies the per-enemy
Math.random()*canvasHeight samples. -/
def addEnemies (elapsedTimeMillis : ℕ) (enemiesLength : ℕ)
    (canvasWidth canvasHeight : ℚ) (randTop : ℕ → ℚ) : List SpriteState :=
  (List.range (numToCreate elapsedTimeMillis enemiesLength).toNat).map
    (fun i => createEnemySprite canvasWidth canvasHeight (randTop i))

/-- Result of the collision sweep: the mutated pools and player, the
explosions pushed during the sweep, the emitted score events in emission
order and the number of player-destroyed notifications. -/
structure SweepResult where
  enemies : List SpriteState
  bullets : List SpriteState
  playerSprite : SpriteState
  explosions : List SpriteState
  scoreEvents : List ℤ
  playerDestroyedEvents : ℕ
deriving Repr

/-- Inner bullets.forEach of the collision sweep for one enemy
(src/scripts/GameEngine.js lines 132-139): on overlap, mark the bullet and
the enemy done, record an explosion at the bullet's position and a score
event of 10.  Returns the enemy, the bullets array, the explosions and the
score events produced by this inner loop. -/
def bulletSweep (nme : SpriteState) :
    List SpriteState → SpriteState × List SpriteState × List SpriteState × List ℤ
  | [] => (nme, [], [], [])
  | bullet :: rest =>
    if overlap bullet nme then
      let bullet1 := setDone bullet true
      let nme1 := setDone nme true
      let boom := createExplosionAt bullet1.curSpritePos.top bullet1.curSpritePos.left
      let r := bulletSweep nme1 rest
      (r.fst, bullet1 :: r.snd.fst, boom :: r.snd.snd.fst, 10 :: r.snd.snd.snd)
    else
      let r := bulletSweep nme rest
      (r.fst, bullet :: r.snd.fst, r.snd.snd.fst, r.snd.snd.snd)

/-- Player part of the collision sweep for one enemy (src/scripts/
GameEngine.js lines 141-145): when the player is not done and overlaps the
enemy, mark the player done, record an explosion at the player's position
and one player-destroyed notification. -/
def playerSweep (nme : SpriteState) (playerSprite : SpriteState) :
    SpriteState × List SpriteState × ℕ :=
  if !playerSprite.done && overlap playerSprite nme then
    let p1 := setDone playerSprite true
    (p1, [createExplosionAt p1.curSpritePos.top p1.curSpritePos.left], 1)
  else
    (playerSprite, [], 0)

/-- The enemies.forEach collision sweep of the step callback
(src/scripts/GameEngine.js lines 131-146): for each enemy in order, run the
inner bullet loop and then the player check, threading the mutated bullets
array and player through the remaining enemies. -/
def collisionSweep (playerSprite : SpriteState) :
    List SpriteState → List SpriteState → SweepResult
  | [], bullets =>
    { enemies := [], bullets := bullets, playerSprite := playerSprite,
      explosions := [], scoreEvents := [], playerDestroyedEvents := 0 }
  | nme :: rest, bullets =>
    let b := bulletSweep nme bullets
    let p := playerSweep b.fst playerSprite
    let r := collisionSweep p.fst rest b.snd.fst
    { enemies := b.fst :: r.enemies
      bullets := r.bullets
      playerSprite := r.playerSprite
      explosions := b.snd.snd.fst ++ p.snd.fst ++ r.explosions
      scoreEvents := b.snd.snd.snd ++ r.scoreEvents
      playerDestroyedEvents := p.snd.snd + r.playerDestroyedEvents }

/-- Engine state threaded through the per-tick step callback. -/
structure GameState where
  playerSprite : SpriteState
  enemies : List SpriteState
  bullets : List SpriteState
  explosions : List SpriteState
  keyHitTime : ActionKey → ℤ

/-- Result of one step callback execution: the new engine state, the score
events and the number of player-destroyed notifications emitted during the
tick. -/
structure TickResult where
  state : GameState
  scoreEvents : List ℤ
  playerDestroyedEvents : ℕ

/-- One execution of the step callback registered by init
(src/scripts/GameEngine.js lines 112-149).  The spawned argument stands for
the list returned by addEnemies, whose wall-clock time and randomness are
external inputs; keyStatusMap and curTime are the input state sampled this
tick.  In source order: append the spawned enemies; when the player is not
done, run checkPlayerActions; update then render the player
unconditionally; run renderSprites over the enemies, the bullets and the
explosions (the source guards the latter two with a length test, which
changes nothing since the loop on an empty array is the identity); finally
run the collision sweep, appending its explosions to the explosions
pool. -/
def gameStep (g : GameState) (spawned : List SpriteState)
    (keyStatusMap : KeyStatus) (framesElapsed : ℕ) (curTime : ℤ)
    (canvasWidth canvasHeight playerWidth playerHeight : ℚ) : TickResult :=
  let enemies0 := g.enemies ++ spawned
  let pa := if !g.playerSprite.done then
      checkPlayerActions keyStatusMap framesElapsed canvasWidth canvasHeight
        playerWidth playerHeight curTime g.playerSprite g.bullets g.keyHitTime
    else
      { playerSprite := g.playerSprite, bullets := g.bullets, keyHitTime := g.keyHitTime }
  let player1 := spriteRender (updateSprite pa.playerSprite framesElapsed)
    canvasWidth canvasHeight
  let enemies1 := renderSprites enemies0 framesElapsed canvasWidth canvasHeight
  let bullets1 := renderSprites pa.bullets framesElapsed canvasWidth canvasHeight
  let explosions1 := renderSprites g.explosions framesElapsed canvasWidth canvasHeight
  let sw := collisionSweep player1 enemies1 bullets1
  { state :=
    { playerSprite := sw.playerSprite
      enemies := sw.enemies
      bullets := sw.bullets
      explosions := explosions1 ++ sw.explosions
      keyHitTime := pa.keyHitTime }
    scoreEvents := sw.scoreEvents
    playerDestroyedEvents := sw.playerDestroyedEvents }

/-- State of the GameClock from src/scripts/GameClock.js: the timestamp of
the last dispatched tick, the running frame counter and the registered step
functions, recorded as subscriber identifiers in registration order. -/
structure ClockState where
  lastTickTime : ℚ
  currentFrameNo : ℤ
  stepFunctions : List ℕ

/-- The millsecsPerFrame constant of GameClock.js: 1000/60. -/
def millsecsPerFrame : ℚ := 1000 / 60

/-- Result of one clockTick invocation: the clock state afterwards, the
subscriber notifications (subscriber identifier with the two arguments it
was invoked with, in invocation order) and whether the scheduler was
re-armed. -/
structure ClockTickResult where
  state : ClockState
  notifications : List (ℕ × ℤ × ℤ)
  rearmed : Bool

/-- clockTick from src/scripts/GameClock.js lines 21-40, with the timestamp
already resolved (the source substitutes Date.now() when the scheduler
passes nothing).  The frame counter is advanced by the elapsed frame count
before the dispatch test, exactly as in the source, so a zero-elapsed
invocation adds zero; the scheduler is re-armed on every path. -/
def clockTick (c : ClockState) (timestamp : ℚ) : ClockTickResult :=
  let elapsed := timestamp - c.lastTickTime
  let framesSinceLastTick : ℤ := ⌊elapsed / millsecsPerFrame⌋
  let currentFrameNo := c.currentFrameNo + framesSinceLastTick
  if 0 < framesSinceLastTick then
    { state := { c with currentFrameNo := currentFrameNo, lastTickTime := timestamp }
      notifications := c.stepFunctions.map (fun fn => (fn, framesSinceLastTick, currentFrameNo))
      rearmed := true }
  else
    { state := { c with currentFrameNo := currentFrameNo }
      notifications := []
      rearmed := true }

/-- Fixed-definition sprite used to instantiate theorems on the concrete
boxes named by the specification scenarios: a static, never-animated sprite
with the given position and size. -/
def testSprite (top left w h : ℚ) : SpriteState :=
  { srcPos := { top := 0, left := 0 }
    size := { w := w, h := h }
    frameRate := 0
    frameSet := [0]
    frameDir := .horizontal
    once := false
    frameIdx := 0
    curSpritePos := { top := top, left := left }
    clockFrame := 0
    done := false
    auto := none }

/-- Concrete mid-run engine state on a 512 by 480 canvas: the freshly
created player at its start position (220, 0) and one enemy (spawned with
random sample 210) that has drifted left to horizontal position 30, where
its box overlaps the player's box.  Used to exercise the per-tick player
collision handling. -/
def gameStart : GameState :=
  { playerSprite := createPlayerSprite 480
    enemies := [setPosition (createEnemySprite 512 480 210) 210 30]
    bullets := []
    explosions := []
    keyHitTime := fun _ => 0 }

/-- Containment of a position in the movement rectangle
[0, canvasWidth - playerWidth] on the horizontal axis and
[0, canvasHeight - playerHeight] on the vertical axis. -/
def inBounds (q : Pos) (canvasWidth canvasHeight playerWidth playerHeight : ℚ) : Prop :=
  0 ≤ q.left ∧ q.left ≤ canvasWidth - playerWidth ∧
  0 ≤ q.top ∧ q.top ≤ canvasHeight - playerHeight

instance (q : Pos) (cw ch pw ph : ℚ) : Decidable (inBounds q cw ch pw ph) := by
  unfold inBounds
  infer_instance

/-! Theorems.  Each claim of the specification is settled by one theorem
below; auxiliary lemmas carry no claim by themselves. -/

/-- Claim C2.  The claim states that once isDone() returns true no later
update or render call can make it false again.  The code refutes it: for a
sprite with a positive frame rate and playOnce false (here a real enemy
sprite that has been marked done by setDone, as the collision sweep does),
the next update call unconditionally reassigns done to
(once AND moveFrames > frameSet.length) = false, resurrecting the sprite.
The repository documentation (src/README.md lines 1623-1644) identifies
this exact line as a bug and prescribes the sticky OR-assignment fix that
scripts/Sprite.js does not contain. -/
theorem spriteUpdate_resurrects_done_sprite :
    (setDone (createEnemySprite 512 480 210) true).done = true ∧
    (updateSprite (setDone (createEnemySprite 512 480 210) true) 1).done = false := by
  with_unfolding_all decide

/-- Claim C5.  The claim states that a playOnce sprite becomes done exactly
when the advanced-frame count first reaches the frame-order length N, so no
frame is ever presented twice.  The code refutes it: a real explosion
sprite (frame rate 4, hence 15 ticks per frame change, N = 12) updated with
180 elapsed ticks has moveFrames = 12 = N, yet its done flag is still false
and its frame index has wrapped to 0, re-presenting the first frame; done
only becomes true when moveFrames exceeds N (here at 195 ticks, moveFrames
= 13).  The repository documentation (src/README.md lines 1645-1655)
identifies this as the extra-rendered-frame bug and prescribes the
greater-or-equal comparison that scripts/Sprite.js does not contain. -/
theorem spriteUpdate_playOnce_not_done_at_length :
    (updateSprite (createExplosionAt 100 100) 180).done = false ∧
    (updateSprite (createExplosionAt 100 100) 180).frameIdx = 0 ∧
    (updateSprite (createExplosionAt 100 100) 195).done = true := by
  with_unfolding_all decide

set_option maxRecDepth 200000 in
/-- Claim C1.  The claim states that the player-destroyed event is emitted
at most once per run.  The code refutes it: from gameStart (player live at
(220, 0), one enemy overlapping it), the first tick emits one
player-destroyed event and marks the player done, but the unconditional
playerSprite.update call of the next tick reassigns the player's done flag
to false (the same Sprite.update bug as in claim C2), so the second tick's
collision sweep sees a live player overlapping the enemy again and emits a
second player-destroyed event. -/
theorem gameStep_playerDestroyed_second_emission :
    (gameStep gameStart [] {} 1 0 512 480 39 25).playerDestroyedEvents = 1 ∧
    (gameStep (gameStep gameStart [] {} 1 0 512 480 39 25).state [] {} 1 0
        512 480 39 25).playerDestroyedEvents = 1 := by
  with_unfolding_all decide

/-- Counterexample to claim C6 as stated: overlap is not symmetric.  When
box A (100 by 100 at the origin) strictly contains box B (5 by 5 at
(10, 10)), no edge of A lies within B's spans, so overlap(A, B) is false,
while overlap(B, A) is true. -/
theorem overlap_not_symmetric :
    overlap (testSprite 0 0 100 100) (testSprite 10 10 5 5) = false ∧
    overlap (testSprite 10 10 5 5) (testSprite 0 0 100 100) = true := by
  with_unfolding_all decide

/-- Claim C6, amended.  The reflexivity half of the claim holds: a sprite
with positive width and height overlaps itself.  The symmetry half fails;
what holds instead is the containment asymmetry exhibited by the
counterexample: whenever box b lies strictly inside box a (and b has
non-negative size), overlap a b is false while overlap b a is true. -/
theorem overlap_refl_and_containment_asymmetry :
    (∀ s : SpriteState, 0 < s.size.w → 0 < s.size.h → overlap s s = true) ∧
    (∀ a b : SpriteState,
      a.curSpritePos.top < b.curSpritePos.top →
      b.curSpritePos.top + b.size.h < a.curSpritePos.top + a.size.h →
      a.curSpritePos.left < b.curSpritePos.left →
      b.curSpritePos.left + b.size.w < a.curSpritePos.left + a.size.w →
      0 ≤ b.size.w → 0 ≤ b.size.h →
      overlap a b = false ∧ overlap b a = true) := by
  constructor
  · intro s hw hh
    simp only [overlap, Bool.or_eq_true, Bool.and_eq_true, decide_eq_true_eq]
    left
    refine ⟨⟨le_refl _, by linarith⟩, Or.inl ⟨le_refl _, by linarith⟩⟩
  · intro a b h1 h2 h3 h4 hw hh
    constructor
    · have ha : decide (b.curSpritePos.top ≤ a.curSpritePos.top) = false :=
        decide_eq_false (by linarith)
      have hb : decide (a.curSpritePos.top + a.size.h ≤ b.curSpritePos.top + b.size.h) = false :=
        decide_eq_false (by linarith)
      simp [overlap, ha, hb]
    · simp only [overlap, Bool.or_eq_true, Bool.and_eq_true, decide_eq_true_eq]
      left
      exact ⟨⟨le_of_lt h1, by linarith⟩, Or.inl ⟨le_of_lt h3, by linarith⟩⟩

/-- Witness for the amended claim C6 at the scenario boxes: the 100 by 100
box overlaps itself, and the strictly contained 5 by 5 box exhibits the
asymmetry. -/
theorem overlap_refl_and_containment_asymmetry_witness :
    overlap (testSprite 0 0 100 100) (testSprite 0 0 100 100) = true ∧
    (overlap (testSprite 0 0 100 100) (testSprite 10 10 5 5) = false ∧
     overlap (testSprite 10 10 5 5) (testSprite 0 0 100 100) = true) :=
  ⟨overlap_refl_and_containment_asymmetry.1 (testSprite 0 0 100 100)
      (by with_unfolding_all decide) (by with_unfolding_all decide),
   overlap_refl_and_containment_asymmetry.2 (testSprite 0 0 100 100) (testSprite 10 10 5 5)
      (by with_unfolding_all decide) (by with_unfolding_all decide)
      (by with_unfolding_all decide) (by with_unfolding_all decide)
      (by with_unfolding_all decide) (by with_unfolding_all decide)⟩

/-- Counterexample to claim C8 as stated: at elapsed wall time 150000
milliseconds (10 completed increments) the target enemy count computed by
addEnemies is 55, not the claimed capped value 100. -/
theorem currentMaxEnemies_at_150000 :
    currentMaxEnemies 150000 = 55 ∧ ¬ currentMaxEnemies 150000 = 100 := by
  with_unfolding_all decide

/-- Claim C8, amended.  The spawn-policy formula is as claimed:
target = floor(maxEnemies * min(initialRate + increment * floor(elapsed /
incrementPeriod), 1)), which evaluates to min(5 * (floor(elapsed / 15000)
+ 1), 100); the target is 5 at 0 ms and 10 at 15001 ms as claimed, but at
150000 ms it is 55, and the cap of 100 is first reached at 285000 ms (19
completed increments), not at 150000 ms.  The per-tick spawn count is
max(0, target - currentEnemyCount), and addEnemies creates exactly that
many enemies. -/
theorem addEnemies_spawn_policy_spec :
    (∀ e : ℕ, currentMaxEnemies e = min (5 * ((e / 15000 : ℕ) : ℤ) + 5) 100) ∧
    currentMaxEnemies 0 = 5 ∧ currentMaxEnemies 15001 = 10 ∧
    currentMaxEnemies 150000 = 55 ∧ currentMaxEnemies 285000 = 100 ∧
    (∀ e count : ℕ, numToCreate e count = max (currentMaxEnemies e - (count : ℤ)) 0) ∧
    (∀ (e count : ℕ) (cw ch : ℚ) (rand : ℕ → ℚ),
      (addEnemies e count cw ch rand).length = (numToCreate e count).toNat) := by
  refine ⟨?_, by with_unfolding_all decide, by with_unfolding_all decide,
    by with_unfolding_all decide, by with_unfolding_all decide, ?_, ?_⟩
  · intro e
    unfold currentMaxEnemies currentLevel initialAdditionRate ENEMY_ADDITION_INCREMENT
      MAX_ENEMIES MS_PER_INCREMENT
    set k : ℕ := e / 15000 with hk
    rcases le_total ((5 : ℚ) / 100 + 5 / 100 * (k : ℚ)) 1 with h | h
    · rw [min_eq_left h]
      have hcast : ((100 : ℕ) : ℚ) * (5 / 100 + 5 / 100 * (k : ℚ)) =
          ((5 * (k : ℤ) + 5 : ℤ) : ℚ) := by
        push_cast
        ring
      rw [hcast, Int.floor_intCast]
      have hk19 : (k : ℤ) ≤ 19 := by
        have : (k : ℚ) ≤ 19 := by linarith
        exact_mod_cast this
      rw [min_eq_left (by omega)]
    · rw [min_eq_right h]
      have hk19 : (19 : ℤ) ≤ (k : ℤ) := by
        have : (19 : ℚ) ≤ (k : ℚ) := by linarith
        exact_mod_cast this
      rw [min_eq_right (by omega)]
      norm_num
  · intro e count
    simp only [numToCreate]
    split <;> omega
  · intro e count cw ch rand
    simp [addEnemies]

/-- Claim C9.  The key-repeat gate returns true and stores the current time
exactly when the elapsed time since the stored timestamp (default 0)
reaches the delay; a false return leaves the map untouched; and two calls
from an open gate separated by less than the delay yield (true, false),
while two calls separated by at least the delay yield (true, true). -/
theorem checkKeyHitDelay_spec (keyHitTime : ActionKey → ℤ) (keyName : ActionKey)
    (delay t1 t2 : ℤ) :
    ((checkKeyHitDelay keyHitTime keyName delay t1).fst = true ↔
      delay ≤ t1 - keyHitTime keyName) ∧
    ((checkKeyHitDelay keyHitTime keyName delay t1).fst = true →
      (checkKeyHitDelay keyHitTime keyName delay t1).snd keyName = t1 ∧
      ∀ k, k ≠ keyName →
        (checkKeyHitDelay keyHitTime keyName delay t1).snd k = keyHitTime k) ∧
    ((checkKeyHitDelay keyHitTime keyName delay t1).fst = false →
      (checkKeyHitDelay keyHitTime keyName delay t1).snd = keyHitTime) ∧
    (delay ≤ t1 - keyHitTime keyName → t2 - t1 < delay →
      (checkKeyHitDelay keyHitTime keyName delay t1).fst = true ∧
      (checkKeyHitDelay (checkKeyHitDelay keyHitTime keyName delay t1).snd
        keyName delay t2).fst = false) ∧
    (delay ≤ t1 - keyHitTime keyName → delay ≤ t2 - t1 →
      (checkKeyHitDelay keyHitTime keyName delay t1).fst = true ∧
      (checkKeyHitDelay (checkKeyHitDelay keyHitTime keyName delay t1).snd
        keyName delay t2).fst = true) := by
  refine ⟨?_, ?_, ?_, ?_, ?_⟩
  · simp only [checkKeyHitDelay]
    split <;> simp_all
  · simp only [checkKeyHitDelay]
    split
    · intro _
      refine ⟨by simp, ?_⟩
      intro k hk
      simp [hk]
    · simp
  · simp only [checkKeyHitDelay]
    split <;> simp
  · intro h1 h2
    have gen1 : ∀ (m : ActionKey → ℤ) (t : ℤ),
        (checkKeyHitDelay m keyName delay t).fst = true ↔ delay ≤ t - m keyName := by
      intro m t
      simp only [checkKeyHitDelay]
      split <;> simp_all
    have hs : (checkKeyHitDelay keyHitTime keyName delay t1).snd keyName = t1 := by
      simp [checkKeyHitDelay, h1]
    refine ⟨(gen1 keyHitTime t1).mpr h1, ?_⟩
    have h3 := gen1 (checkKeyHitDelay keyHitTime keyName delay t1).snd t2
    rw [hs] at h3
    rcases hb : (checkKeyHitDelay (checkKeyHitDelay keyHitTime keyName delay t1).snd
        keyName delay t2).fst
    · rfl
    · exact absurd (h3.mp hb) (by omega)
  · intro h1 h2
    have gen1 : ∀ (m : ActionKey → ℤ) (t : ℤ),
        (checkKeyHitDelay m keyName delay t).fst = true ↔ delay ≤ t - m keyName := by
      intro m t
      simp only [checkKeyHitDelay]
      split <;> simp_all
    have hs : (checkKeyHitDelay keyHitTime keyName delay t1).snd keyName = t1 := by
      simp [checkKeyHitDelay, h1]
    refine ⟨(gen1 keyHitTime t1).mpr h1, ?_⟩
    apply (gen1 (checkKeyHitDelay keyHitTime keyName delay t1).snd t2).mpr
    rw [hs]
    omega

/-- Witness for claim C9 at a concrete run: from an empty map at time 1000
with delay 250, the call opens the gate, a second call at 1100 is rejected,
so the recorded pair is (true, false). -/
theorem checkKeyHitDelay_spec_witness :
    (checkKeyHitDelay (fun _ => 0) ActionKey.SPACE 250 1000).fst = true ∧
    (checkKeyHitDelay (checkKeyHitDelay (fun _ => 0) ActionKey.SPACE 250 1000).snd
      ActionKey.SPACE 250 1100).fst = false :=
  (checkKeyHitDelay_spec (fun _ => 0) ActionKey.SPACE 250 1000 1100).2.2.2.1
    (by decide) (by decide)

/-- Claim C10.  With a timestamp no earlier than the last dispatched tick:
the elapsed tick count is a non-negative integer; when it is positive,
every registered subscriber is notified in registration order with the
elapsed count and the advanced frame counter, and lastTickTime is set to
the timestamp; when it is zero, no subscriber is notified and the state is
unchanged; and the scheduler is re-armed in both cases. -/
theorem clockTick_spec (c : ClockState) (timestamp : ℚ)
    (h : c.lastTickTime ≤ timestamp) :
    0 ≤ (⌊(timestamp - c.lastTickTime) / millsecsPerFrame⌋ : ℤ) ∧
    (0 < (⌊(timestamp - c.lastTickTime) / millsecsPerFrame⌋ : ℤ) →
      clockTick c timestamp =
        { state :=
          { lastTickTime := timestamp
            currentFrameNo := c.currentFrameNo + ⌊(timestamp - c.lastTickTime) / millsecsPerFrame⌋
            stepFunctions := c.stepFunctions }
          notifications := c.stepFunctions.map (fun fn =>
            (fn, ⌊(timestamp - c.lastTickTime) / millsecsPerFrame⌋,
              c.currentFrameNo + ⌊(timestamp - c.lastTickTime) / millsecsPerFrame⌋))
          rearmed := true }) ∧
    ((⌊(timestamp - c.lastTickTime) / millsecsPerFrame⌋ : ℤ) = 0 →
      (clockTick c timestamp).state = c ∧ (clockTick c timestamp).notifications = []) ∧
    (clockTick c timestamp).rearmed = true := by
  have hnn : 0 ≤ (⌊(timestamp - c.lastTickTime) / millsecsPerFrame⌋ : ℤ) := by
    apply Int.floor_nonneg.mpr
    apply div_nonneg (by linarith)
    norm_num [millsecsPerFrame]
  refine ⟨hnn, ?_, ?_, ?_⟩
  · intro hpos
    simp only [clockTick]
    rw [if_pos hpos]
  · intro hzero
    simp only [clockTick]
    rw [if_neg (by omega)]
    refine ⟨?_, rfl⟩
    rw [hzero]
    simp
  · simp only [clockTick]
    split <;> rfl

/-- Witness for claim C10 at a concrete clock: from lastTickTime 0 with two
subscribers, an invocation at timestamp 100 dispatches 6 elapsed ticks to
both subscribers and re-arms the scheduler. -/
theorem clockTick_spec_witness :
    (clockTick { lastTickTime := 0, currentFrameNo := 0, stepFunctions := [7, 8] }
      100).rearmed = true :=
  (clockTick_spec { lastTickTime := 0, currentFrameNo := 0, stepFunctions := [7, 8] }
    100 (by norm_num)).2.2.2

/-- Auxiliary list fact: reading the element stored right after a prefix. -/
theorem get_append_middle {α : Type} (pre : List α) (a : α) (post : List α)
    (h : pre.length < (pre ++ a :: post).length) :
    (pre ++ a :: post).get ⟨pre.length, h⟩ = a := by
  induction pre with
  | nil => rfl
  | cons x xs ih => exact ih (by simp)

/-- Auxiliary list fact: replacing the element stored right after a
prefix. -/
theorem set_append_middle {α : Type} (pre : List α) (a b : α) (post : List α) :
    (pre ++ a :: post).set pre.length b = pre ++ b :: post := by
  induction pre with
  | nil => rfl
  | cons x xs ih => simp only [List.cons_append, List.length_cons, List.set_cons_succ, ih]

/-- Auxiliary list fact: erasing the element stored right after a prefix. -/
theorem eraseIdx_append_middle {α : Type} (pre : List α) (a : α) (post : List α) :
    (pre ++ a :: post).eraseIdx pre.length = pre ++ post := by
  induction pre with
  | nil => rfl
  | cons x xs ih => simp only [List.cons_append, List.length_cons, List.eraseIdx_cons_succ, ih]

/-- Loop invariant of renderSprites: started at the index just past an
already-processed prefix, the splice loop leaves the prefix untouched and
turns the unprocessed suffix into its stepped survivors. -/
theorem renderSpritesLoop_append (framesElapsed : ℕ) (canvasWidth canvasHeight : ℚ)
    (post : List SpriteState) : ∀ pre : List SpriteState,
    renderSpritesLoop framesElapsed canvasWidth canvasHeight (pre ++ post) pre.length =
      pre ++ (post.map (spriteStep framesElapsed canvasWidth canvasHeight)).filter
        (fun s => !s.done) := by
  induction post with
  | nil =>
    intro pre
    rw [renderSpritesLoop]
    simp
  | cons s rest ih =>
    intro pre
    have hlen : pre.length < (pre ++ s :: rest).length := by simp
    rw [renderSpritesLoop, dif_pos hlen]
    simp only [get_append_middle pre s rest hlen, set_append_middle]
    by_cases hdone : (spriteStep framesElapsed canvasWidth canvasHeight s).done
    · rw [if_pos hdone, eraseIdx_append_middle, ih pre]
      simp [hdone]
    · rw [if_neg hdone]
      have h2 : pre ++ spriteStep framesElapsed canvasWidth canvasHeight s :: rest =
          (pre ++ [spriteStep framesElapsed canvasWidth canvasHeight s]) ++ rest := by
        simp
      have h3 : pre.length + 1 =
          (pre ++ [spriteStep framesElapsed canvasWidth canvasHeight s]).length := by
        simp
      rw [h2, h3, ih (pre ++ [spriteStep framesElapsed canvasWidth canvasHeight s])]
      simp [hdone]

/-- Claim C3.  One renderSprites pass over a pool equals mapping every
entity, in index order, through one update-then-render step and then
removing exactly the entities whose done flag is set afterwards: each
entity originally in the pool receives exactly one update and one render
(the single map application), the splice with post-decremented index skips
nobody, and the surviving entities keep their original relative order (the
filter of the map). -/
theorem renderSprites_spec (spriteArray : List SpriteState) (framesElapsed : ℕ)
    (canvasWidth canvasHeight : ℚ) :
    renderSprites spriteArray framesElapsed canvasWidth canvasHeight =
      (spriteArray.map (spriteStep framesElapsed canvasWidth canvasHeight)).filter
        (fun s => !s.done) := by
  have h := renderSpritesLoop_append framesElapsed canvasWidth canvasHeight spriteArray []
  simpa [renderSprites] using h

/-- The overlap test reads only positions and sizes, so marking the first
sprite done does not change it. -/
theorem overlap_setDone_left (a b : SpriteState) (st : Bool) :
    overlap (setDone a st) b = overlap a b := rfl

/-- The overlap test reads only positions and sizes, so marking the second
sprite done does not change it. -/
theorem overlap_setDone_right (a b : SpriteState) (st : Bool) :
    overlap a (setDone b st) = overlap a b := rfl

/-- The inner bullet loop is the identity when no bullet overlaps the
enemy. -/
theorem bulletSweep_no_hits (nme : SpriteState) :
    ∀ bullets : List SpriteState, (∀ b ∈ bullets, overlap b nme = false) →
      bulletSweep nme bullets = (nme, bullets, [], []) := by
  intro bullets
  induction bullets with
  | nil => intro _; rfl
  | cons b rest ih =>
    intro h
    rw [bulletSweep]
    rw [if_neg (by simp [h b (by simp)])]
    rw [ih (fun x hx => h x (by simp [hx]))]

/-- The inner bullet loop on a single overlapping bullet: it marks the
bullet and the enemy, records one explosion at the bullet's position and
one score event of 10, and leaves every other bullet alone. -/
theorem bulletSweep_single_hit (nme bullet : SpriteState)
    (bs1 bs2 : List SpriteState) (hov : overlap bullet nme = true)
    (hothers : ∀ b ∈ bs1 ++ bs2, overlap b nme = false) :
    bulletSweep nme (bs1 ++ bullet :: bs2) =
      (setDone nme true, bs1 ++ setDone bullet true :: bs2,
        [createExplosionAt bullet.curSpritePos.top bullet.curSpritePos.left], [10]) := by
  induction bs1 with
  | nil =>
    rw [List.nil_append, bulletSweep, if_pos hov]
    have hrest : ∀ b ∈ bs2, overlap b (setDone nme true) = false := by
      intro b hb
      rw [overlap_setDone_right]
      exact hothers b (by simp [hb])
    simp only [bulletSweep_no_hits (setDone nme true) bs2 hrest]
    rfl
  | cons x xs ih =>
    have hx : overlap x nme = false := hothers x (by simp)
    rw [List.cons_append, bulletSweep, if_neg (by simp [hx])]
    rw [ih (fun b hb => hothers b (by simp at hb; simp [hb]))]
    rfl

/-- The per-enemy player check does nothing when the player does not
overlap the enemy. -/
theorem playerSweep_no_overlap (nme p : SpriteState) (h : overlap p nme = false) :
    playerSweep nme p = (p, [], 0) := by
  rw [playerSweep, if_neg (by simp [h])]

/-- The collision sweep is the identity and emits nothing when no bullet
overlaps any enemy and the player overlaps no enemy. -/
theorem collisionSweep_no_hits (p : SpriteState) :
    ∀ (es bs : List SpriteState),
      (∀ e ∈ es, ∀ b ∈ bs, overlap b e = false) →
      (∀ e ∈ es, overlap p e = false) →
      collisionSweep p es bs =
        { enemies := es, bullets := bs, playerSprite := p,
          explosions := [], scoreEvents := [], playerDestroyedEvents := 0 } := by
  intro es
  induction es with
  | nil => intro bs _ _; rfl
  | cons e rest ih =>
    intro bs h1 h2
    rw [collisionSweep]
    rw [bulletSweep_no_hits e bs (h1 e (by simp))]
    rw [playerSweep_no_overlap e p (h2 e (by simp))]
    rw [ih bs (fun x hx => h1 x (by simp [hx])) (fun x hx => h2 x (by simp [hx]))]
    rfl

/-- Claim C4.  On a tick whose pools contain exactly one overlapping
bullet-enemy pair (and whose player overlaps no enemy), the collision sweep
marks exactly that bullet and that enemy done through setDone (the marking
operation Sprite.js gains in the README revision, src/README.md line 1609),
spawns exactly one explosion at the bullet's position, and emits exactly
one score event carrying the fixed per-kill value 10; everything else is
left unchanged and no player-destroyed event is emitted. -/
theorem collisionSweep_single_overlap_spec
    (es1 es2 bs1 bs2 : List SpriteState) (nme bullet playerSprite : SpriteState)
    (hbn : overlap bullet nme = true)
    (hothers : ∀ e ∈ es1 ++ es2, ∀ b ∈ bs1 ++ bullet :: bs2, overlap b e = false)
    (hobul : ∀ b ∈ bs1 ++ bs2, overlap b nme = false)
    (hplayer : ∀ e ∈ es1 ++ nme :: es2, overlap playerSprite e = false) :
    collisionSweep playerSprite (es1 ++ nme :: es2) (bs1 ++ bullet :: bs2) =
      { enemies := es1 ++ setDone nme true :: es2
        bullets := bs1 ++ setDone bullet true :: bs2
        playerSprite := playerSprite
        explosions := [createExplosionAt bullet.curSpritePos.top bullet.curSpritePos.left]
        scoreEvents := [10]
        playerDestroyedEvents := 0 } := by
  induction es1 with
  | nil =>
    rw [List.nil_append, List.nil_append, collisionSweep]
    rw [bulletSweep_single_hit nme bullet bs1 bs2 hbn hobul]
    have hp : overlap playerSprite (setDone nme true) = false := by
      rw [overlap_setDone_right]
      exact hplayer nme (by simp)
    have h1 : ∀ e ∈ es2, ∀ b ∈ bs1 ++ setDone bullet true :: bs2, overlap b e = false := by
      intro e he b hb
      rcases List.mem_append.mp hb with hb1 | hb2
      · exact hothers e (by simp [he]) b (List.mem_append.mpr (Or.inl hb1))
      · rcases List.mem_cons.mp hb2 with rfl | hb3
        · rw [overlap_setDone_left]
          exact hothers e (by simp [he]) bullet (by simp)
        · exact hothers e (by simp [he]) b (by simp [hb3])
    have h2 : ∀ e ∈ es2, overlap playerSprite e = false := fun e he =>
      hplayer e (by simp [he])
    simp only [playerSweep_no_overlap _ _ hp,
      collisionSweep_no_hits playerSprite es2 _ h1 h2]
    rfl
  | cons x xs ih =>
    rw [List.cons_append, collisionSweep]
    have hbx : ∀ b ∈ bs1 ++ bullet :: bs2, overlap b x = false := hothers x (by simp)
    have hpx : overlap playerSprite x = false := hplayer x (by simp)
    have ihh := ih (fun e he => hothers e (by simp at he ⊢; tauto))
      (fun e he => hplayer e (by simp at he ⊢; tauto))
    rw [bulletSweep_no_hits x _ hbx]
    simp only [playerSweep_no_overlap x playerSprite hpx, ihh]
    simp

/-- Witness for claim C4 at the scenario boxes of the specification: the
bullet box at (100, 100) of size 10 by 5 against the enemy box at (98, 105)
of size 20 by 20, with the player far away at (400, 0). -/
theorem collisionSweep_single_overlap_spec_witness :
    collisionSweep (testSprite 400 0 39 25) [testSprite 98 105 20 20]
        [testSprite 100 100 10 5] =
      { enemies := [setDone (testSprite 98 105 20 20) true]
        bullets := [setDone (testSprite 100 100 10 5) true]
        playerSprite := testSprite 400 0 39 25
        explosions := [createExplosionAt 100 100]
        scoreEvents := [10]
        playerDestroyedEvents := 0 } :=
  collisionSweep_single_overlap_spec [] [] [] [] (testSprite 98 105 20 20)
    (testSprite 100 100 10 5) (testSprite 400 0 39 25)
    (by with_unfolding_all decide)
    (by simp)
    (by simp)
    (by
      intro e he
      simp only [List.nil_append, List.mem_singleton] at he
      subst he
      with_unfolding_all decide)

/-- Counterexample to claim C7 as stated: with LEFT and UP both pressed
from position (50, 50) and one elapsed tick, the code yields (47, 50) -
the UP branch re-reads the entry snapshot and overwrites the horizontal
move - while the claim requires movement along each pressed direction,
which would give (47, 47). -/
theorem checkPlayerActions_diagonal_counterexample :
    (checkPlayerActions { left := true, up := true } 1 512 480 39 25 0
      (testSprite 50 50 39 25) [] (fun _ => 0)).playerSprite.curSpritePos =
      { top := 47, left := 50 } ∧
    ({ top := 47, left := 50 } : Pos) ≠ { top := 47, left := 47 } := by
  with_unfolding_all decide

set_option maxHeartbeats 3000000 in
/-- Claim C7, amended.  With a single pressed direction key the player
moves by MOVE_PIXELS times the elapsed ticks along that direction, clamped
exactly as the source clamps it; with several pressed keys each branch
recomputes from the position snapshot taken at entry, so a later branch
overwrites the earlier branch's axis change (LEFT plus UP moves only up);
and for every key combination, a player starting inside
[0, canvasWidth - playerWidth] x [0, canvasHeight - playerHeight] stays
inside that rectangle. -/
theorem checkPlayerActions_move_spec :
    (∀ (p : SpriteState) (fe : ℕ) (cw ch pw ph : ℚ) (t : ℤ)
        (bs : List SpriteState) (kh : ActionKey → ℤ),
      (checkPlayerActions { left := true } fe cw ch pw ph t p bs kh).playerSprite.curSpritePos =
        { top := p.curSpritePos.top,
          left := max 0 (p.curSpritePos.left - MOVE_PIXELS * (fe : ℚ)) } ∧
      (checkPlayerActions { right := true } fe cw ch pw ph t p bs kh).playerSprite.curSpritePos =
        { top := p.curSpritePos.top,
          left := min (cw - pw) (p.curSpritePos.left + MOVE_PIXELS * (fe : ℚ)) } ∧
      (checkPlayerActions { up := true } fe cw ch pw ph t p bs kh).playerSprite.curSpritePos =
        { top := max 0 (p.curSpritePos.top - MOVE_PIXELS * (fe : ℚ)),
          left := p.curSpritePos.left } ∧
      (checkPlayerActions { down := true } fe cw ch pw ph t p bs kh).playerSprite.curSpritePos =
        { top := min (ch - ph) (p.curSpritePos.top + MOVE_PIXELS * (fe : ℚ)),
          left := p.curSpritePos.left } ∧
      (checkPlayerActions { left := true, up := true } fe cw ch pw ph t p bs
          kh).playerSprite.curSpritePos =
        { top := max 0 (p.curSpritePos.top - MOVE_PIXELS * (fe : ℚ)),
          left := p.curSpritePos.left }) ∧
    (∀ (keys : KeyStatus) (p : SpriteState) (fe : ℕ) (cw ch pw ph : ℚ) (t : ℤ)
        (bs : List SpriteState) (kh : ActionKey → ℤ),
      0 ≤ p.curSpritePos.left → p.curSpritePos.left ≤ cw - pw →
      0 ≤ p.curSpritePos.top → p.curSpritePos.top ≤ ch - ph →
      inBounds (checkPlayerActions keys fe cw ch pw ph t p bs kh).playerSprite.curSpritePos
        cw ch pw ph) := by
  constructor
  · intro p fe cw ch pw ph t bs kh
    exact ⟨rfl, rfl, rfl, rfl, rfl⟩
  · intro keys p fe cw ch pw ph t bs kh h1 h2 h3 h4
    have hd : (0 : ℚ) ≤ MOVE_PIXELS * (fe : ℚ) :=
      mul_nonneg (by norm_num [MOVE_PIXELS]) (Nat.cast_nonneg fe)
    simp only [checkPlayerActions, inBounds, setPosition]
    split_ifs <;>
      refine ⟨?_, ?_, ?_, ?_⟩ <;>
      first
        | assumption
        | exact le_max_left 0 _
        | exact max_le (by linarith) (by linarith)
        | exact le_min (by linarith) (by linarith)
        | exact min_le_left _ _

/-- Witness for the amended claim C7: from (50, 50) on the 512 by 480
canvas with LEFT and DOWN pressed for two ticks, the resulting position is
inside the movement rectangle. -/
theorem checkPlayerActions_move_spec_witness :
    inBounds (checkPlayerActions { left := true, down := true } 2 512 480 39 25 0
      (testSprite 50 50 39 25) [] (fun _ => 0)).playerSprite.curSpritePos 512 480 39 25 :=
  checkPlayerActions_move_spec.2 { left := true, down := true } (testSprite 50 50 39 25)
    2 512 480 39 25 0 [] (fun _ => 0)
    (by with_unfolding_all decide) (by with_unfolding_all decide)
    (by with_unfolding_all decide) (by with_unfolding_all decide)

end Gunship
